import Mathlib

/-!
Shallow embedding of the multi-camera motion-detection and tripwire-alerting
core of src/src/main.py (classes CameraAgent and SystemController, plus the
pure geometry helpers line_segment_intersection and line_intersects_rect).

Modelling conventions:
  - Python floats are embedded as rationals; Python int() truncation toward
    zero is pyInt.
  - A video frame is an opaque identifier (a natural number); the OpenCV
    image operations (resize, cvtColor+GaussianBlur, and the
    absdiff/threshold/dilate/findContours pipeline) are external collaborators
    and appear as an oracle structure Cv.  A contour is abstracted to the data
    the code reads off it: its area (cv2.contourArea) and bounding rectangle
    (cv2.boundingRect).
  - time.time() is a per-tick instant passed in as an argument; all reads of
    the clock within one process() tick are identified.
  - cv2.VideoCapture is modelled as Cap: a file capture carries its frame
    list and position (read fails past the end, set(CAP_PROP_POS_FRAMES, 0)
    rewinds), a live capture carries an abstract read stream.
  - Side effects on the image sink (provider.update_image) are returned as an
    explicit event list.
-/

/-- A video frame, identified opaquely. -/
abbrev Frame := Nat

/-- The 1e-10 degeneracy cutoff of line_segment_intersection. -/
def eps : ℚ := 1 / 10 ^ 10

/-- Python int(): truncation toward zero. -/
def pyInt (q : ℚ) : ℤ := if 0 ≤ q then ⌊q⌋ else ⌈q⌉

/-- CameraAgent.line_segment_intersection (src/src/main.py lines 237-251):
segment p1-p2 versus segment p3-p4, parametric test with degeneracy cutoff. -/
def line_segment_intersection (p1 p2 p3 p4 : ℚ × ℚ) : Bool :=
  let x1 := p1.1; let y1 := p1.2
  let x2 := p2.1; let y2 := p2.2
  let x3 := p3.1; let y3 := p3.2
  let x4 := p4.1; let y4 := p4.2
  let denom := (x1 - x2) * (y3 - y4) - (y1 - y2) * (x3 - x4)
  if |denom| < eps then false
  else
    let t := ((x1 - x3) * (y3 - y4) - (y1 - y3) * (x3 - x4)) / denom
    let u := -((x1 - x2) * (y1 - y3) - (y1 - y2) * (x1 - x3)) / denom
    decide (0 ≤ t ∧ t ≤ 1 ∧ 0 ≤ u ∧ u ≤ 1)

/-- CameraAgent.line_intersects_rect (lines 208-235): endpoint-in-rectangle
check followed by the four edge tests (top, bottom, left, right). -/
def line_intersects_rect (p1 p2 : ℚ × ℚ) (rect : ℚ × ℚ × ℚ × ℚ) : Bool :=
  let x := rect.1; let y := rect.2.1; let w := rect.2.2.1; let h := rect.2.2.2
  let x1 := p1.1; let y1 := p1.2
  let x2 := p2.1; let y2 := p2.2
  if (x ≤ x1 ∧ x1 ≤ x + w ∧ y ≤ y1 ∧ y1 ≤ y + h) ∨
     (x ≤ x2 ∧ x2 ≤ x + w ∧ y ≤ y2 ∧ y2 ≤ y + h) then true
  else if line_segment_intersection p1 p2 (x, y) (x + w, y) then true
  else if line_segment_intersection p1 p2 (x, y + h) (x + w, y + h) then true
  else if line_segment_intersection p1 p2 (x, y) (x, y + h) then true
  else if line_segment_intersection p1 p2 (x + w, y) (x + w, y + h) then true
  else false

/-- Spec-side reading ("either endpoint lies within the closed rectangle"). -/
def inClosedRect (p : ℚ × ℚ) (rect : ℚ × ℚ × ℚ × ℚ) : Prop :=
  rect.1 ≤ p.1 ∧ p.1 ≤ rect.1 + rect.2.2.1 ∧
  rect.2.1 ≤ p.2 ∧ p.2 ≤ rect.2.1 + rect.2.2.2

/-- Spec-side reading of segmentsIntersect: false iff the denominator is
below the 1e-10 cutoff, else both parameters t and u lie in [0,1]. -/
def segmentsIntersectSpec (p1 p2 p3 p4 : ℚ × ℚ) : Prop :=
  let d := (p1.1 - p2.1) * (p3.2 - p4.2) - (p1.2 - p2.2) * (p3.1 - p4.1)
  ¬ |d| < eps ∧
    (0 ≤ ((p1.1 - p3.1) * (p3.2 - p4.2) - (p1.2 - p3.2) * (p3.1 - p4.1)) / d ∧
     ((p1.1 - p3.1) * (p3.2 - p4.2) - (p1.2 - p3.2) * (p3.1 - p4.1)) / d ≤ 1 ∧
     0 ≤ -((p1.1 - p2.1) * (p1.2 - p3.2) - (p1.2 - p2.2) * (p1.1 - p3.1)) / d ∧
     -((p1.1 - p2.1) * (p1.2 - p3.2) - (p1.2 - p2.2) * (p1.1 - p3.1)) / d ≤ 1)

/-- Spec-side reading of lineCrossesRect: an endpoint within the closed
rectangle, or an intersection with one of the four rectangle edges. -/
def lineCrossesRectSpec (p1 p2 : ℚ × ℚ) (rect : ℚ × ℚ × ℚ × ℚ) : Prop :=
  inClosedRect p1 rect ∨ inClosedRect p2 rect ∨
  segmentsIntersectSpec p1 p2 (rect.1, rect.2.1) (rect.1 + rect.2.2.1, rect.2.1) ∨
  segmentsIntersectSpec p1 p2 (rect.1, rect.2.1 + rect.2.2.2)
    (rect.1 + rect.2.2.1, rect.2.1 + rect.2.2.2) ∨
  segmentsIntersectSpec p1 p2 (rect.1, rect.2.1) (rect.1, rect.2.1 + rect.2.2.2) ∨
  segmentsIntersectSpec p1 p2 (rect.1 + rect.2.2.1, rect.2.1)
    (rect.1 + rect.2.2.1, rect.2.1 + rect.2.2.2)

lemma line_segment_intersection_iff (p1 p2 p3 p4 : ℚ × ℚ) :
    line_segment_intersection p1 p2 p3 p4 = true ↔ segmentsIntersectSpec p1 p2 p3 p4 := by
  unfold line_segment_intersection segmentsIntersectSpec
  dsimp only
  split_ifs with hd
  · simp only [Bool.false_eq_true, false_iff]
    intro h
    exact h.1 hd
  · simp only [decide_eq_true_eq]
    constructor
    · intro h
      exact ⟨hd, h⟩
    · intro h
      exact h.2

lemma line_intersects_rect_iff (p1 p2 : ℚ × ℚ) (rect : ℚ × ℚ × ℚ × ℚ) :
    line_intersects_rect p1 p2 rect = true ↔ lineCrossesRectSpec p1 p2 rect := by
  unfold line_intersects_rect lineCrossesRectSpec inClosedRect
  dsimp only
  simp only [← line_segment_intersection_iff]
  split_ifs with h1 h2 h3 h4 h5
  · simp only [true_iff]
    rcases h1 with h | h
    · exact Or.inl h
    · exact Or.inr (Or.inl h)
  · simp only [true_iff]
    exact Or.inr (Or.inr (Or.inl h2))
  · simp only [true_iff]
    exact Or.inr (Or.inr (Or.inr (Or.inl h3)))
  · simp only [true_iff]
    exact Or.inr (Or.inr (Or.inr (Or.inr (Or.inl h4))))
  · simp only [true_iff]
    exact Or.inr (Or.inr (Or.inr (Or.inr (Or.inr h5))))
  · rw [not_or] at h1
    simp only [Bool.false_eq_true, false_iff]
    intro hc
    rcases hc with hc | hc | hc | hc | hc | hc
    · exact h1.1 hc
    · exact h1.2 hc
    · exact h2 hc
    · exact h3 hc
    · exact h4 hc
    · exact h5 hc

/-- Claim C5: line_intersects_rect(p1, p2, rect) returns true iff either
segment endpoint lies within the closed rectangle or the segment intersects
at least one of the four rectangle edges, where the segment intersection
test returns false whenever its denominator d satisfies |d| < 1e-10 and
otherwise returns true iff both parameters t and u lie in [0,1] inclusive. -/
theorem C5_geometry :
    (∀ p1 p2 p3 p4 : ℚ × ℚ,
      line_segment_intersection p1 p2 p3 p4 = true ↔ segmentsIntersectSpec p1 p2 p3 p4) ∧
    (∀ (p1 p2 : ℚ × ℚ) (rect : ℚ × ℚ × ℚ × ℚ),
      line_intersects_rect p1 p2 rect = true ↔ lineCrossesRectSpec p1 p2 rect) :=
  ⟨line_segment_intersection_iff, line_intersects_rect_iff⟩

/-- The camera source descriptor (config field "source"): a string (file path
or URI, distinguished by whether it starts with "rtsp") or an integer device
index.  process() treats a read failure as end-of-stream exactly when the
source is a string not starting with "rtsp" (line 127). -/
inductive SourceDesc
  | str (startsWithRtsp : Bool)
  | device (idx : ℤ)
deriving DecidableEq

/-- The looping-file condition of line 127: isinstance(source, str) and not
source.startswith("rtsp"). -/
def SourceDesc.isFileStr : SourceDesc → Bool
  | .str b => !b
  | .device _ => false

/-- cv2.VideoCapture handle: a file capture with its frame list and read
position, or a live capture with an abstract stream of read results. -/
inductive Cap
  | file (frames : List Frame) (pos : Nat) (opened : Bool)
  | live (reads : Nat → Option Frame) (k : Nat) (opened : Bool)

/-- cap.isOpened(). -/
def Cap.isOpened : Cap → Bool
  | .file _ _ o => o
  | .live _ _ o => o

/-- cap.read(): the (ret, frame) pair and the handle afterwards.  A file
capture past its last frame fails and keeps its position. -/
def Cap.read : Cap → Option Frame × Cap
  | .file fs pos o =>
    match fs[pos]? with
    | some f => (some f, .file fs (pos + 1) o)
    | none => (none, .file fs pos o)
  | .live r k o => (r k, .live r (k + 1) o)

/-- cap.set(cv2.CAP_PROP_POS_FRAMES, 0): rewind a file capture. -/
def Cap.rewind : Cap → Cap
  | .file fs _ o => .file fs 0 o
  | .live r k o => .live r k o

/-- A contour as the code reads it: its cv2.contourArea and its
cv2.boundingRect (x, y, w, h) in pixels. -/
structure Contour where
  area : ℚ
  x : ℤ
  y : ℤ
  w : ℤ
  h : ℤ
deriving DecidableEq

/-- The external OpenCV image pipeline, abstracted: resize to 640x480,
grayscale conversion plus Gaussian blur, and the
absdiff/threshold/dilate/findContours chain applied to the previous and
current processed frames. -/
structure Cv where
  resize : Frame → Frame
  grayBlur : Frame → Frame
  contoursOf : Frame → Frame → List Contour

/-- An alert handed to the alert callback: the camera display name and the
truncated area printed in the message "Tripwire Crossed! (Area: ...)". -/
structure Alert where
  camera : String
  areaShown : ℤ
deriving DecidableEq

/-- An emission to the image provider: an annotated frame derived from the
resized source frame, or the black placeholder frame sent by stop(). -/
inductive SinkEvent
  | frame (camId : String) (f : Frame)
  | black (camId : String)
deriving DecidableEq

/-- The mutable per-camera state of class CameraAgent. -/
structure Agent where
  id : String
  name : String
  source : SourceDesc
  sensitivity : ℚ
  roi_line : List ℚ
  cap : Option Cap
  active : Bool
  prev_frame : Option Frame
  fps : Nat
  frame_count : Nat
  last_time : ℚ
  last_alert_time : ℚ

/-- A camera entry of the parsed configuration, with each field optionally
present (config.get semantics; a missing required field raises KeyError). -/
structure RawConf where
  id : Option String
  name : Option String
  source : Option SourceDesc
  sensitivity : Option ℚ
  roi : Option (List ℚ)

/-- CameraAgent.__init__ (lines 81-101): reads id, name and source (KeyError,
modelled as none, when absent), defaults sensitivity to 1000 and the roi line
to [], and clears all runtime state; last_alert_time starts at 0. -/
def CameraAgent.init (t0 : ℚ) (c : RawConf) : Option Agent :=
  match c.id, c.name, c.source with
  | some i, some n, some s => some
      { id := i, name := n, source := s,
        sensitivity := c.sensitivity.getD 1000,
        roi_line := c.roi.getD [],
        cap := none, active := false, prev_frame := none,
        fps := 0, frame_count := 0, last_time := t0, last_alert_time := 0 }
  | _, _, _ => none

/-- CameraAgent.start (lines 103-106): no-op when already active, else open
the source (the fresh handle is supplied by the environment) and set active. -/
def Agent.start (a : Agent) (newCap : Cap) : Agent :=
  if a.active then a else { a with cap := some newCap, active := true }

/-- CameraAgent.stop (lines 108-114): clear active, release and drop the
handle, and send the black placeholder frame to the provider. -/
def Agent.stop (a : Agent) : Agent × List SinkEvent :=
  ({ a with active := false, cap := none }, [SinkEvent.black a.id])

/-- CameraAgent.set_roi (lines 116-118): store the points verbatim. -/
def Agent.set_roi (a : Agent) (points : List ℚ) : Agent :=
  { a with roi_line := points }

/-- The tripwire line in pixels, present exactly when the roi list has four
entries: ((int(x1*640), int(y1*480)), (int(x2*640), int(y2*480))). -/
def roiPixels (roi : List ℚ) : Option ((ℚ × ℚ) × (ℚ × ℚ)) :=
  match roi with
  | [rx1, ry1, rx2, ry2] =>
    some ((pyInt (rx1 * 640), pyInt (ry1 * 480)), (pyInt (rx2 * 640), pyInt (ry2 * 480)))
  | _ => none

/-- The per-contour alert condition of lines 163-169: a four-entry roi line,
a strictly elapsed 2-second cooldown, and the bounding box crossing the
tripwire. -/
def tripFire (roi : List ℚ) (now last : ℚ) (c : Contour) : Bool :=
  match roiPixels roi with
  | none => false
  | some (q1, q2) =>
    if now - last > 2 then
      line_intersects_rect q1 q2 ((c.x : ℚ), (c.y : ℚ), (c.w : ℚ), (c.h : ℚ))
    else false

/-- The contour loop of lines 149-175: contours below sensitivity are
discarded; each surviving contour becomes a motion region, and may fire the
tripwire alert, which advances the in-tick last-alert time.  Returns the
surviving regions, the final last-alert time and the alerts in order. -/
def tripwireScan (name : String) (sens : ℚ) (roi : List ℚ) (now : ℚ) :
    List Contour → ℚ → List Contour × ℚ × List Alert
  | [], last => ([], last, [])
  | c :: rest, last =>
    if c.area < sens then tripwireScan name sens roi now rest last
    else
      let fired := tripFire roi now last c
      let last1 := if fired then now else last
      let r := tripwireScan name sens roi now rest last1
      (c :: r.1, r.2.1,
        (if fired then [{ camera := name, areaShown := pyInt c.area }] else []) ++ r.2.2)

/-- What one CameraAgent.process call produces: the agent afterwards, the
image-sink emissions, the surviving motion regions, the alerts handed to the
alert callback, and the frame the read returned (none on a failed or skipped
read). -/
structure TickResult where
  agent : Agent
  events : List SinkEvent
  regions : List Contour
  alerts : List Alert
  readFrame : Option Frame

/-- CameraAgent.process (lines 120-206).  Returns immediately unless active
with an open handle; a failed read rewinds string-path (non-rtsp) sources and
emits nothing; on the first successful read the processed frame is stored as
prev_frame and nothing is emitted (the provider update of line 206 sits in
the else branch of the prev_frame check); otherwise the contour loop runs,
the FPS window rolls, and one annotated frame is emitted. -/
def Agent.process (cv : Cv) (a : Agent) (now : ℚ) : TickResult :=
  match a.active, a.cap with
  | true, some cap =>
    if cap.isOpened then
      match cap.read with
      | (none, cap1) =>
        let cap2 := if a.source.isFileStr then cap1.rewind else cap1
        ⟨{ a with cap := some cap2 }, [], [], [], none⟩
      | (some f0, cap1) =>
        let frame := cv.resize f0
        let gray := cv.grayBlur frame
        match a.prev_frame with
        | none =>
          ⟨{ a with cap := some cap1, prev_frame := some gray }, [], [], [], some f0⟩
        | some prev =>
          let cs := cv.contoursOf prev gray
          let r := tripwireScan a.name a.sensitivity a.roi_line now cs a.last_alert_time
          let fc := a.frame_count + 1
          let fps1 := if now - a.last_time ≥ 1 then fc else a.fps
          let fc1 := if now - a.last_time ≥ 1 then 0 else fc
          let lt1 := if now - a.last_time ≥ 1 then now else a.last_time
          ⟨{ a with
               cap := some cap1
               prev_frame := some gray
               last_alert_time := (r.2).1
               fps := fps1
               frame_count := fc1
               last_time := lt1 },
           [SinkEvent.frame a.id frame], r.1, (r.2).2, some f0⟩
    else ⟨a, [], [], [], none⟩
  | _, _ => ⟨a, [], [], [], none⟩

/-- CameraAgent.take_snapshot (lines 253-261): an extra read from the handle
when one is present; only the handle state changes here (the file write is
external). -/
def Agent.take_snapshot (a : Agent) : Agent :=
  match a.cap with
  | none => a
  | some cap => { a with cap := some (cap.read).2 }

/-- Python dict lookup (self.agents[cam_id] guarded by "cam_id in"). -/
def dictGet (m : List (String × Agent)) (k : String) : Option Agent :=
  match m with
  | [] => none
  | (k1, v) :: rest => if k1 = k then some v else dictGet rest k

/-- Python dict assignment self.agents[k] = v: replace in place when the key
exists, else append (insertion order preserved). -/
def dictSet (m : List (String × Agent)) (k : String) (v : Agent) : List (String × Agent) :=
  match m with
  | [] => [(k, v)]
  | (k1, v1) :: rest => if k1 = k then (k, v) :: rest else (k1, v1) :: dictSet rest k v

/-- The config loop of SystemController.__init__ (lines 273-281): agents are
created entry by entry inside one try block, so the first entry whose
construction raises (a missing required field) ends the loop; the exception
is caught outside it and the agents built so far are kept. -/
def loadAgents (t0 : ℚ) (acc : List (String × Agent)) : List RawConf → List (String × Agent)
  | [] => acc
  | c :: rest =>
    match CameraAgent.init t0 c with
    | none => acc
    | some a => loadAgents t0 (dictSet acc a.id a) rest

/-- An error a control call could report to its caller.  The code's control
slots report none: an unknown id is silently skipped. -/
inductive CtrlErr
  | unknownCamera
deriving DecidableEq

/-- The orchestrator state: the id-to-agent map of SystemController. -/
structure SystemC where
  agents : List (String × Agent)

/-- SystemController.toggleCamera (lines 300-305): look the id up; stop an
active agent, start an inactive one; an unknown id does nothing, and no
error value is ever reported. -/
def SystemC.toggleCamera (sys : SystemC) (camId : String) (newCap : Cap) :
    SystemC × Option CtrlErr × List SinkEvent :=
  match dictGet sys.agents camId with
  | none => (sys, none, [])
  | some a =>
    if a.active then
      let r := a.stop
      (⟨dictSet sys.agents camId r.1⟩, none, r.2)
    else
      (⟨dictSet sys.agents camId (a.start newCap)⟩, none, [])

/-- SystemController.setRoi (lines 313-316): forward the four coordinates
verbatim to the named agent; unknown ids are skipped. -/
def SystemC.setRoi (sys : SystemC) (camId : String) (x1 y1 x2 y2 : ℚ) : SystemC :=
  match dictGet sys.agents camId with
  | none => sys
  | some a => ⟨dictSet sys.agents camId (a.set_roi [x1, y1, x2, y2])⟩

/-- SystemController.setSensitivity (lines 319-322): store the integer value
verbatim on the named agent; unknown ids are skipped. -/
def SystemC.setSensitivity (sys : SystemC) (camId : String) (val : ℤ) : SystemC :=
  match dictGet sys.agents camId with
  | none => sys
  | some a => ⟨dictSet sys.agents camId { a with sensitivity := (val : ℚ) }⟩

/-- One call on a single agent, with the environment data each call consumes
(the fresh handle a start opens, the clock reading of a process tick). -/
inductive AgentOp
  | start (newCap : Cap)
  | stop
  | process (now : ℚ)
  | set_roi (points : List ℚ)
  | setSensitivity (v : ℚ)
  | take_snapshot

/-- Apply one call to an agent, keeping only the agent state. -/
def Agent.applyOp (cv : Cv) (a : Agent) : AgentOp → Agent
  | .start c => a.start c
  | .stop => (a.stop).1
  | .process now => (Agent.process cv a now).agent
  | .set_roi ps => a.set_roi ps
  | .setSensitivity v => { a with sensitivity := v }
  | .take_snapshot => a.take_snapshot

/-- Run a sequence of calls on an agent. -/
def Agent.run (cv : Cv) (a : Agent) : List AgentOp → Agent
  | [] => a
  | op :: rest => Agent.run cv (a.applyOp cv op) rest

/-- The source-handle invariant of the data model: a handle is held exactly
while the agent is active. -/
def capActiveInv (a : Agent) : Prop := a.cap.isSome = a.active

lemma tripFire_none (roi : List ℚ) (now last : ℚ) (c : Contour)
    (h : roiPixels roi = none) : tripFire roi now last c = false := by
  unfold tripFire
  rw [h]

lemma tripFire_cold (roi : List ℚ) (now last : ℚ) (c : Contour)
    (h : ¬ now - last > 2) : tripFire roi now last c = false := by
  unfold tripFire
  rcases hr : roiPixels roi with _ | q
  · rfl
  · obtain ⟨q1, q2⟩ := q
    simp only
    rw [if_neg h]

lemma tripFire_self (roi : List ℚ) (now : ℚ) (c : Contour) :
    tripFire roi now now c = false := by
  apply tripFire_cold
  rw [sub_self]
  norm_num

/-- The shape of the contour loop's alert output: the final last-alert time
is the entry time unless an alert fired (then it is now), at most one alert
fires per call, and nothing fires without a configured line or inside the
cooldown window. -/
lemma tripwireScan_alerts (name : String) (sens : ℚ) (roi : List ℚ) (now : ℚ) :
    ∀ (cs : List Contour) (last : ℚ),
      (((tripwireScan name sens roi now cs last).2).2 = [] →
        ((tripwireScan name sens roi now cs last).2).1 = last) ∧
      (((tripwireScan name sens roi now cs last).2).2 ≠ [] →
        ((tripwireScan name sens roi now cs last).2).1 = now) ∧
      ((tripwireScan name sens roi now cs last).2).2.length ≤ 1 ∧
      (¬ now - last > 2 → ((tripwireScan name sens roi now cs last).2).2 = []) ∧
      (roiPixels roi = none → ((tripwireScan name sens roi now cs last).2).2 = []) := by
  intro cs
  induction cs with
  | nil =>
    intro last
    simp [tripwireScan]
  | cons c rest ih =>
    intro last
    by_cases hA : c.area < sens
    · simpa only [tripwireScan, if_pos hA] using ih last
    · cases hf : tripFire roi now last c with
      | false =>
        have h0 := ih last
        refine ⟨?_, ?_, ?_, ?_, ?_⟩ <;>
          simp only [tripwireScan, if_neg hA, hf, Bool.false_eq_true, if_false,
            List.nil_append, ite_false] <;>
          [exact h0.1; exact h0.2.1; exact h0.2.2.1; exact h0.2.2.2.1; exact h0.2.2.2.2]
      | true =>
        have hcold : ¬ now - now > 2 := by rw [sub_self]; norm_num
        have h1 := ih now
        have hre : ((tripwireScan name sens roi now rest now).2).2 = [] :=
          h1.2.2.2.1 hcold
        have hrl : ((tripwireScan name sens roi now rest now).2).1 = now := h1.1 hre
        have hsc : tripwireScan name sens roi now (c :: rest) last =
            (c :: (tripwireScan name sens roi now rest now).1, now,
              [{ camera := name, areaShown := pyInt c.area }]) := by
          simp only [tripwireScan, if_neg hA, hf, if_true, ite_true, List.cons_append,
            List.nil_append, hre, List.append_nil]
          rw [hrl]
        rw [hsc]
        refine ⟨?_, ?_, ?_, ?_, ?_⟩
        · intro hemp
          exact absurd hemp (List.cons_ne_nil _ _)
        · intro _
          rfl
        · simp
        · intro hc
          exact absurd hf (by rw [tripFire_cold roi now last c hc]; exact Bool.false_ne_true)
        · intro hn
          exact absurd hf (by rw [tripFire_none roi now last c hn]; exact Bool.false_ne_true)

/-- Claim C4: in one process() tick at most one alert is emitted (the first
qualifying region wins: the in-tick cooldown update blocks the rest), the
last-alert timestamp becomes the tick's time exactly when an alert fired and
is otherwise untouched, and no alert fires without a four-entry tripwire
line or before the strict 2-second cooldown has elapsed. -/
theorem C4_one_alert_per_tick :
    ∀ (cv : Cv) (a : Agent) (now : ℚ),
      (Agent.process cv a now).alerts.length ≤ 1 ∧
      ((Agent.process cv a now).alerts ≠ [] →
        (Agent.process cv a now).agent.last_alert_time = now) ∧
      ((Agent.process cv a now).alerts = [] →
        (Agent.process cv a now).agent.last_alert_time = a.last_alert_time) ∧
      (roiPixels a.roi_line = none → (Agent.process cv a now).alerts = []) ∧
      (¬ now - a.last_alert_time > 2 → (Agent.process cv a now).alerts = []) := by
  intro cv a now
  rcases hact : a.active with _ | _ <;> rcases hcap : a.cap with _ | cap
  · simp [Agent.process, hact, hcap]
  · simp [Agent.process, hact, hcap]
  · simp [Agent.process, hact, hcap]
  · cases hop : cap.isOpened with
    | false => simp [Agent.process, hact, hcap, hop]
    | true =>
      rcases hr : cap.read with ⟨o, cap1⟩
      rcases o with _ | f
      · simp [Agent.process, hact, hcap, hop, hr]
      · rcases hp : a.prev_frame with _ | prev
        · simp [Agent.process, hact, hcap, hop, hr, hp]
        · have hs := tripwireScan_alerts a.name a.sensitivity a.roi_line now
            (cv.contoursOf prev (cv.grayBlur (cv.resize f))) a.last_alert_time
          simp only [Agent.process, hact, hcap, hop, hr, hp, if_true]
          exact ⟨hs.2.2.1, hs.2.1, hs.1, hs.2.2.2.2, hs.2.2.2.1⟩

lemma process_keeps_active_cap (cv : Cv) (a : Agent) (now : ℚ) :
    (Agent.process cv a now).agent.active = a.active ∧
    ((Agent.process cv a now).agent.cap).isSome = (a.cap).isSome := by
  rcases hact : a.active with _ | _ <;> rcases hcap : a.cap with _ | cap
  · simp [Agent.process, hact, hcap]
  · simp [Agent.process, hact, hcap]
  · simp [Agent.process, hact, hcap]
  · cases hop : cap.isOpened with
    | false => simp [Agent.process, hact, hcap, hop]
    | true =>
      rcases hr : cap.read with ⟨o, cap1⟩
      rcases o with _ | f
      · simp [Agent.process, hact, hcap, hop, hr]
      · rcases hp : a.prev_frame with _ | prev
        · simp [Agent.process, hact, hcap, hop, hr, hp]
        · simp [Agent.process, hact, hcap, hop, hr, hp]

lemma applyOp_keeps_inv (cv : Cv) (a : Agent) (op : AgentOp) (h : capActiveInv a) :
    capActiveInv (a.applyOp cv op) := by
  cases op with
  | start c =>
    unfold capActiveInv
    simp only [Agent.applyOp, Agent.start]
    by_cases ha : a.active = true
    · rw [if_pos ha]
      exact h
    · rw [if_neg ha]
      simp
  | stop =>
    unfold capActiveInv
    simp [Agent.applyOp, Agent.stop]
  | process now =>
    unfold capActiveInv
    simp only [Agent.applyOp]
    rw [(process_keeps_active_cap cv a now).1, (process_keeps_active_cap cv a now).2]
    exact h
  | set_roi ps =>
    unfold capActiveInv
    simp only [Agent.applyOp, Agent.set_roi]
    exact h
  | setSensitivity v =>
    unfold capActiveInv
    simp only [Agent.applyOp]
    exact h
  | take_snapshot =>
    unfold capActiveInv at h
    unfold capActiveInv
    simp only [Agent.applyOp, Agent.take_snapshot]
    rcases hcap : a.cap with _ | cap
    · rw [hcap] at h
      rw [hcap]
      exact h
    · rw [hcap] at h
      simp_all

lemma run_keeps_inv (cv : Cv) :
    ∀ (ops : List AgentOp) (a : Agent), capActiveInv a → capActiveInv (Agent.run cv a ops)
  | [], _a, h => h
  | op :: rest, a, h =>
    run_keeps_inv cv rest (a.applyOp cv op) (applyOp_keeps_inv cv a op h)

/-- Claim C9: the source handle is present iff the agent is active, along
every call sequence from a freshly constructed agent; stop() drops the
handle synchronously and emits exactly the black placeholder frame; and a
process() right after stop() is a no-op that changes nothing and emits
nothing. -/
theorem C9_handle_iff_active :
    (∀ (cv : Cv) (a : Agent) (ops : List AgentOp),
      capActiveInv a → capActiveInv (Agent.run cv a ops)) ∧
    (∀ (t0 : ℚ) (c : RawConf) (ag : Agent),
      CameraAgent.init t0 c = some ag → capActiveInv ag) ∧
    (∀ a : Agent,
      ((Agent.stop a).1.cap = none ∧ (Agent.stop a).1.active = false) ∧
      (Agent.stop a).2 = [SinkEvent.black a.id]) ∧
    (∀ (cv : Cv) (a : Agent) (now : ℚ),
      Agent.process cv (Agent.stop a).1 now = ⟨(Agent.stop a).1, [], [], [], none⟩) := by
  refine ⟨fun cv a ops h => run_keeps_inv cv ops a h, ?_, ?_, ?_⟩
  · intro t0 c ag h
    unfold CameraAgent.init at h
    rcases hci : c.id with _ | i <;> rw [hci] at h
    · cases h
    · rcases hcn : c.name with _ | n <;> rw [hcn] at h
      · cases h
      · rcases hcs : c.source with _ | s <;> rw [hcs] at h
        · cases h
        · cases h
          rfl
  · intro a
    exact ⟨⟨rfl, rfl⟩, rfl⟩
  · intro cv a now
    rfl

/-- Claim C1 (amended): on the first successful read after (re)start, when no
previous frame is recorded, process() stores the processed (grayscale,
blurred) frame as the previous frame, reports no motion regions and no
alerts, and emits nothing at all to the image sink that tick. -/
theorem C1_first_frame (cv : Cv) (a : Agent) (cap cap1 : Cap) (f : Frame) (now : ℚ)
    (hact : a.active = true) (hcap : a.cap = some cap) (hop : cap.isOpened = true)
    (hread : cap.read = (some f, cap1)) (hprev : a.prev_frame = none) :
    Agent.process cv a now =
      ⟨{ a with
           cap := some cap1
           prev_frame := some (cv.grayBlur (cv.resize f)) },
        [], [], [], some f⟩ := by
  simp [Agent.process, hact, hcap, hop, hread, hprev]

/-- An oracle whose external image operations are the identity and whose
motion pipeline reports no contours. -/
def cvTriv : Cv :=
  { resize := fun f => f, grayBlur := fun f => f, contoursOf := fun _ _ => [] }

/-- A live handle that always reads frame 7, at stream offset 0. -/
def capLive7 : Cap := .live (fun _ => some 7) 0 true

/-- The same handle after one read. -/
def capLive7' : Cap := .live (fun _ => some 7) 1 true

/-- A running agent with an open handle and no previous frame. -/
def agentC1 : Agent :=
  { id := "cam1", name := "Camera 1", source := .device 0, sensitivity := 1000,
    roi_line := [], cap := some capLive7, active := true, prev_frame := none,
    fps := 0, frame_count := 0, last_time := 0, last_alert_time := 0 }

theorem C1_first_frame_witness :
    Agent.process cvTriv agentC1 5 =
      ⟨{ agentC1 with
           cap := some capLive7'
           prev_frame := some (cvTriv.grayBlur (cvTriv.resize 7)) },
        [], [], [], some 7⟩ :=
  C1_first_frame cvTriv agentC1 capLive7 capLive7' 7 5 rfl rfl rfl rfl rfl

/-- Counterexample to claim C1 as stated: this first-frame tick reads frame 7
successfully and records it as the previous frame, yet the event list is
empty — the input frame is NOT returned/emitted to the image sink. -/
theorem C1_counterexample :
    (Agent.process cvTriv agentC1 5).readFrame = some 7 ∧
    (Agent.process cvTriv agentC1 5).agent.prev_frame = some 7 ∧
    (Agent.process cvTriv agentC1 5).events = [] ∧
    (Agent.process cvTriv agentC1 5).events ≠ [SinkEvent.frame "cam1" 7] :=
  ⟨rfl, rfl, rfl, by intro h; cases h⟩

/-- Claim C2 (amended): previousFrame is absent on a freshly constructed
agent, but neither start() nor stop() clears it, so after a restart the
frame recorded before the stop persists. -/
theorem C2_prev_frame :
    (∀ (t0 : ℚ) (c : RawConf) (ag : Agent),
      CameraAgent.init t0 c = some ag → ag.prev_frame = none) ∧
    (∀ (a : Agent) (cap : Cap), (Agent.start a cap).prev_frame = a.prev_frame) ∧
    (∀ a : Agent, ((Agent.stop a).1).prev_frame = a.prev_frame) := by
  refine ⟨?_, ?_, ?_⟩
  · intro t0 c ag h
    unfold CameraAgent.init at h
    rcases hci : c.id with _ | i <;> rw [hci] at h
    · cases h
    · rcases hcn : c.name with _ | n <;> rw [hcn] at h
      · cases h
      · rcases hcs : c.source with _ | s <;> rw [hcs] at h
        · cases h
        · cases h
          rfl
  · intro a cap
    unfold Agent.start
    by_cases ha : a.active = true
    · rw [if_pos ha]
    · rw [if_neg ha]
  · intro a
    rfl

/-- A cv oracle reporting one large full-frame contour on every detection
tick (area 2000, bounding box the whole 640x480 frame). -/
def cvBig : Cv :=
  { resize := fun f => f, grayBlur := fun f => f,
    contoursOf := fun _ _ => [{ area := 2000, x := 0, y := 0, w := 640, h := 480 }] }

/-- A fresh agent with a tripwire line configured (normalized
[0.1, 0.1, 0.2, 0.2], i.e. [1/10, 1/10, 1/5, 1/5]), as CameraAgent.__init__ builds it. -/
def agentC2 : Agent :=
  { id := "cam2", name := "Camera 2", source := .device 0, sensitivity := 1000,
    roi_line := [1/10, 1/10, 1/5, 1/5], cap := none, active := false,
    prev_frame := none, fps := 0, frame_count := 0, last_time := 0,
    last_alert_time := 0 }

/-- The restart sequence: start, one process tick (records a previous frame),
stop, start again. -/
def agentC2restarted : Agent :=
  Agent.start
    ((Agent.stop (Agent.process cvBig (Agent.start agentC2 capLive7) 10).agent).1)
    capLive7

/-- Counterexample to claim C2 as stated: right after the restart the
previousFrame field still holds the frame recorded before the stop, and the
very first process() call after the restart does flag motion and even fires
a tripwire alert. -/
lemma tripFireBig (now last : ℚ) (h : now - last > 2) :
    tripFire [1/10, 1/10, 1/5, 1/5] now last
      { area := 2000, x := 0, y := 0, w := 640, h := 480 } = true := by
  unfold tripFire roiPixels
  dsimp only
  rw [if_pos h]
  norm_num [pyInt, line_intersects_rect]

lemma scanBig (name : String) (now last : ℚ) (h : now - last > 2) :
    tripwireScan name 1000 [1/10, 1/10, 1/5, 1/5] now
      [{ area := 2000, x := 0, y := 0, w := 640, h := 480 }] last =
      ([{ area := 2000, x := 0, y := 0, w := 640, h := 480 }], now,
        [{ camera := name, areaShown := 2000 }]) := by
  have hfire := tripFireBig now last h
  norm_num [tripwireScan, hfire, pyInt]

lemma scanBigCold (name : String) (now last : ℚ) (h : ¬ now - last > 2) :
    tripwireScan name 1000 [1/10, 1/10, 1/5, 1/5] now
      [{ area := 2000, x := 0, y := 0, w := 640, h := 480 }] last =
      ([{ area := 2000, x := 0, y := 0, w := 640, h := 480 }], last, []) := by
  have hfire := tripFire_cold [1/10, 1/10, 1/5, 1/5] now last
    { area := 2000, x := 0, y := 0, w := 640, h := 480 } h
  norm_num [tripwireScan, hfire]

/-- The state agentC2restarted reduces to: running again, handle fresh, but
the previous frame recorded before the stop still present. -/
def agentC2run : Agent :=
  { agentC2 with cap := some capLive7, active := true, prev_frame := some 7 }

theorem C2_counterexample :
    agentC2restarted.prev_frame = some 7 ∧
    agentC2restarted.prev_frame ≠ none ∧
    (Agent.process cvBig agentC2restarted 10).regions =
      [{ area := 2000, x := 0, y := 0, w := 640, h := 480 }] ∧
    (Agent.process cvBig agentC2restarted 10).alerts = [{ camera := "Camera 2", areaShown := 2000 }] := by
  have hre : agentC2restarted = agentC2run := rfl
  refine ⟨rfl, ?_, ?_, ?_⟩
  · intro h
    cases h
  · decide
  · rw [hre]
    have hscan := scanBig "Camera 2" 10 0 (by norm_num)
    simp only [Agent.process, agentC2run, agentC2, cvBig, capLive7, Cap.isOpened, Cap.read,
      if_true, hscan]

/-- A live handle that always reads frame 7, at a given stream offset. -/
def capL7 (k : Nat) : Cap := .live (fun _ => some 7) k true

/-- The configuration of the cooldown scenario: tripwire line configured,
default sensitivity. -/
def confC3 : RawConf :=
  { id := some "cam3", name := some "Camera 3", source := some (.device 0),
    sensitivity := none, roi := some [1/10, 1/10, 1/5, 1/5] }

/-- The cooldown-scenario agent: built by CameraAgent.__init__ from confC3
(so last_alert_time starts at its initial value 0) and started. -/
def agentC3 : Agent := Agent.start ((CameraAgent.init 0 confC3).getD agentC2) (capL7 0)

/-- Warm-up tick (first frame, records the previous frame, cannot alert). -/
def c3warm (t0 : ℚ) : TickResult := Agent.process cvBig agentC3 t0

/-- First qualifying crossing, at time t0. -/
def c3tick1 (t0 : ℚ) : TickResult := Agent.process cvBig (c3warm t0).agent t0

/-- Second qualifying crossing, 1.0s after the first. -/
def c3tick2 (t0 : ℚ) : TickResult := Agent.process cvBig (c3tick1 t0).agent (t0 + 1)

/-- Third qualifying crossing, 2.1s after the first. -/
def c3tick3 (t0 : ℚ) : TickResult := Agent.process cvBig (c3tick2 t0).agent (t0 + 21/10)

/-- agentC3 spelled out. -/
def agentC3a : Agent :=
  { id := "cam3", name := "Camera 3", source := .device 0, sensitivity := 1000,
    roi_line := [1/10, 1/10, 1/5, 1/5], cap := some (capL7 0), active := true,
    prev_frame := none, fps := 0, frame_count := 0, last_time := 0, last_alert_time := 0 }

/-- The agent after the warm-up tick. -/
def agentC3w : Agent := { agentC3a with cap := some (capL7 1), prev_frame := some 7 }

/-- The agent after the first crossing tick. -/
def agentC3b (t0 : ℚ) : Agent :=
  { agentC3w with
      cap := some (capL7 2)
      last_alert_time := t0
      fps := 1
      frame_count := 0
      last_time := t0 }

/-- The agent after the second crossing tick (no alert: cooldown). -/
def agentC3c (t0 : ℚ) : Agent :=
  { agentC3b t0 with
      cap := some (capL7 3)
      fps := 1
      frame_count := 0
      last_time := t0 + 1 }

set_option maxRecDepth 4096 in
/-- Claim C3: with the 2.0s cooldown and last_alert_time at its initial
value 0, qualifying crossings at times t0 and t0+1.0 produce exactly one
alert between them, and a third qualifying crossing at t0+2.1 produces a
second alert (the comparison is strict, and 2.1 > 2 elapsed fires again);
the hypothesis 2 < t0 says the scenario runs with a clock whose first
reading already exceeds the cooldown, as any wall-clock reading does against
the initial timestamp 0. -/
theorem C3_cooldown (t0 : ℚ) (h : 2 < t0) :
    (c3tick1 t0).alerts.length = 1 ∧
    (c3tick2 t0).alerts = [] ∧
    (c3tick3 t0).alerts.length = 1 := by
  have hA : t0 - 0 > 2 := by rwa [sub_zero]
  have hB : t0 - 0 ≥ 1 := by rw [sub_zero]; linarith
  have hC : ¬ (t0 + 1 - t0 > 2) := by rw [add_sub_cancel_left]; norm_num
  have hD : t0 + 1 - t0 ≥ 1 := by rw [add_sub_cancel_left]
  have hE : t0 + 21/10 - t0 > 2 := by rw [add_sub_cancel_left]; norm_num
  have hw : (c3warm t0).agent = agentC3w := rfl
  have e1 : c3tick1 t0 = ⟨agentC3b t0, [SinkEvent.frame "cam3" 7],
      [{ area := 2000, x := 0, y := 0, w := 640, h := 480 }],
      [{ camera := "Camera 3", areaShown := 2000 }], some 7⟩ := by
    have hsc := scanBig "Camera 3" t0 0 hA
    show Agent.process cvBig (c3warm t0).agent t0 = _
    rw [hw]
    simp only [Agent.process, agentC3w, agentC3a, agentC3b, capL7, cvBig, Cap.isOpened,
      Cap.read, hsc, hB, if_true, ite_true]
  have e2 : c3tick2 t0 = ⟨agentC3c t0, [SinkEvent.frame "cam3" 7],
      [{ area := 2000, x := 0, y := 0, w := 640, h := 480 }], [], some 7⟩ := by
    have hsc := scanBigCold "Camera 3" (t0 + 1) t0 hC
    show Agent.process cvBig (c3tick1 t0).agent (t0 + 1) = _
    rw [e1]
    simp only [Agent.process, agentC3w, agentC3a, agentC3b, agentC3c, capL7, cvBig,
      Cap.isOpened, Cap.read, hsc, hD, if_true, ite_true]
  have e3 : (c3tick3 t0).alerts = [{ camera := "Camera 3", areaShown := 2000 }] := by
    have hsc := scanBig "Camera 3" (t0 + 21/10) t0 hE
    show (Agent.process cvBig (c3tick2 t0).agent (t0 + 21/10)).alerts = _
    rw [e2]
    simp only [Agent.process, agentC3w, agentC3a, agentC3b, agentC3c, capL7, cvBig,
      Cap.isOpened, Cap.read, hsc, if_true, ite_true]
  rw [e1, e2, e3]
  exact ⟨rfl, rfl, rfl⟩

theorem C3_cooldown_witness :
    (c3tick1 100).alerts.length = 1 ∧
    (c3tick2 100).alerts = [] ∧
    (c3tick3 100).alerts.length = 1 :=
  C3_cooldown 100 (by norm_num)

/-- A file-source handle over a 3-frame file, at a given position. -/
def capFile3 (pos : Nat) : Cap := .file [10, 20, 30] pos true

/-- A running agent over a 3-frame file source (a string path not starting
with "rtsp", so read failures rewind). -/
def agentC6 : Agent :=
  { id := "cam6", name := "Camera 6", source := .str false, sensitivity := 1000,
    roi_line := [], cap := some (capFile3 0), active := true, prev_frame := none,
    fps := 0, frame_count := 0, last_time := 0, last_alert_time := 0 }

/-- Five successive process() calls on the 3-frame file source. -/
def c6t1 : TickResult := Agent.process cvTriv agentC6 1

def c6t2 : TickResult := Agent.process cvTriv c6t1.agent 2

def c6t3 : TickResult := Agent.process cvTriv c6t2.agent 3

def c6t4 : TickResult := Agent.process cvTriv c6t3.agent 4

def c6t5 : TickResult := Agent.process cvTriv c6t4.agent 5

/-- Counterexample to claim C6 as stated: four process() calls on the
3-frame file source read frames 1, 2 and 3 and then NOTHING — the fourth
call's read fails (end of stream) and does not yield the first frame. -/
theorem C6_counterexample :
    c6t1.readFrame = some 10 ∧ c6t2.readFrame = some 20 ∧ c6t3.readFrame = some 30 ∧
    c6t4.readFrame = none ∧ c6t4.readFrame ≠ some 10 :=
  ⟨rfl, rfl, rfl, rfl, by intro h; cases h⟩

/-- Claim C6 (amended): the fourth call hits end-of-stream, emits no frame
that tick, and rewinds the file source to its first frame, so the FIFTH call
reads frame 1 again: five calls yield 1, 2, 3, nothing, 1.  The second half
of the claim (failure on a file source rewinds and emits nothing) holds as
stated. -/
theorem C6_file_looping :
    c6t1.readFrame = some 10 ∧ c6t2.readFrame = some 20 ∧ c6t3.readFrame = some 30 ∧
    c6t4.readFrame = none ∧ c6t4.events = [] ∧
    c6t4.agent.cap = some (Cap.file [10, 20, 30] 0 true) ∧
    c6t5.readFrame = some 10 :=
  ⟨rfl, rfl, rfl, rfl, rfl, rfl, rfl⟩

lemma dictGet_dictSet_self (m : List (String × Agent)) (k : String) (v : Agent) :
    dictGet (dictSet m k v) k = some v := by
  induction m with
  | nil => simp [dictGet, dictSet]
  | cons p rest ih =>
    obtain ⟨k1, v1⟩ := p
    by_cases hk : k1 = k
    · simp [dictGet, dictSet, hk]
    · simp [dictGet, dictSet, hk, ih]

/-- A config entry whose required id field is missing (KeyError in
CameraAgent.__init__). -/
def confBad : RawConf :=
  { id := none, name := some "Broken", source := some (.device 1),
    sensitivity := none, roi := none }

/-- Claim C7 (amended): one entry with a missing required field ends the
whole load at that entry — the agents built from the entries before it are
kept, and every entry after it (valid or not) is skipped, because the
exception is caught outside the loading loop. -/
theorem C7_config_abort (t0 : ℚ) (acc : List (String × Agent)) (pre post : List RawConf)
    (c : RawConf) (hpre : ∀ e ∈ pre, (CameraAgent.init t0 e).isSome = true)
    (hc : CameraAgent.init t0 c = none) :
    loadAgents t0 acc (pre ++ c :: post) = loadAgents t0 acc pre := by
  induction pre generalizing acc with
  | nil =>
    simp only [List.nil_append, loadAgents, hc]
  | cons e rest ih =>
    have he : (CameraAgent.init t0 e).isSome = true := hpre e (List.mem_cons_self e rest)
    obtain ⟨a, ha⟩ := Option.isSome_iff_exists.mp he
    have hrest : ∀ x ∈ rest, (CameraAgent.init t0 x).isSome = true :=
      fun x hx => hpre x (List.mem_cons_of_mem e hx)
    simp only [List.cons_append, loadAgents, ha]
    exact ih (dictSet acc a.id a) hrest

theorem C7_config_abort_witness :
    loadAgents 0 [] ([confC3] ++ confBad :: [confC3]) = loadAgents 0 [] [confC3] :=
  C7_config_abort 0 [] [confC3] [confC3] confBad
    (by
      intro e he
      rw [List.mem_singleton] at he
      subst he
      rfl)
    rfl

/-- Counterexample to claim C7 as stated: with a bad first entry and a
perfectly valid second entry, the load stops at the first — the valid
"cam3" entry is never loaded, so loading of the other entries did NOT
continue. -/
theorem C7_counterexample :
    loadAgents 0 [] [confBad, confC3] = [] ∧
    dictGet (loadAgents 0 [] [confBad, confC3]) "cam3" = none :=
  ⟨rfl, rfl⟩

/-- A controller owning one agent under id "cam3". -/
def sysC8 : SystemC := ⟨[("cam3", agentC2)]⟩

/-- Claim C8 (amended): toggle on a camera id absent from the agent map is a
silent no-op: the map and every agent in it are unchanged, no placeholder
frame is emitted, and no error value is reported to the caller (the slot
returns nothing — in particular not UnknownCamera). -/
theorem C8_toggle_unknown (sys : SystemC) (camId : String) (newCap : Cap)
    (h : dictGet sys.agents camId = none) :
    SystemC.toggleCamera sys camId newCap = (sys, none, []) := by
  unfold SystemC.toggleCamera
  rw [h]

theorem C8_toggle_unknown_witness :
    SystemC.toggleCamera sysC8 "ghost" (capL7 0) = (sysC8, none, []) :=
  C8_toggle_unknown sysC8 "ghost" (capL7 0) rfl

/-- Counterexample to claim C8 as stated: toggling the unknown id "ghost"
reports NO error to the caller (the error slot of the result is none, not
UnknownCamera), while the agent map is indeed left unchanged. -/
theorem C8_counterexample :
    (SystemC.toggleCamera sysC8 "ghost" (capL7 0)).2.1 = none ∧
    (SystemC.toggleCamera sysC8 "ghost" (capL7 0)).2.1 ≠ some CtrlErr.unknownCamera ∧
    (SystemC.toggleCamera sysC8 "ghost" (capL7 0)).1 = sysC8 := by
  refine ⟨rfl, ?_, rfl⟩
  intro h
  cases h

/-- Claim C10: for a known camera id, setSensitivity and setRoi store their
arguments verbatim — no range check, no error: any integer sensitivity
(zero or negative included) and any coordinates (outside [0,1] included)
are accepted unchanged; and with sensitivity at most 0 every detected
contour (areas being nonnegative) survives the area filter as a motion
region. -/
theorem C10_setters_verbatim :
    (∀ (sys : SystemC) (camId : String) (v : ℤ) (a : Agent),
      dictGet sys.agents camId = some a →
      dictGet (SystemC.setSensitivity sys camId v).agents camId =
        some { a with sensitivity := (v : ℚ) }) ∧
    (∀ (sys : SystemC) (camId : String) (x1 y1 x2 y2 : ℚ) (a : Agent),
      dictGet sys.agents camId = some a →
      dictGet (SystemC.setRoi sys camId x1 y1 x2 y2).agents camId =
        some { a with roi_line := [x1, y1, x2, y2] }) ∧
    (∀ (name : String) (sens : ℚ) (roi : List ℚ) (now : ℚ) (cs : List Contour) (last : ℚ),
      sens ≤ 0 → (∀ c ∈ cs, 0 ≤ c.area) →
      (tripwireScan name sens roi now cs last).1 = cs) := by
  refine ⟨?_, ?_, ?_⟩
  · intro sys camId v a h
    unfold SystemC.setSensitivity
    rw [h]
    exact dictGet_dictSet_self sys.agents camId _
  · intro sys camId x1 y1 x2 y2 a h
    unfold SystemC.setRoi
    rw [h]
    exact dictGet_dictSet_self sys.agents camId _
  · intro name sens roi now cs
    induction cs with
    | nil =>
      intro last _ _
      rfl
    | cons c rest ih =>
      intro last hs hareas
      have hc0 : (0:ℚ) ≤ c.area := hareas c (List.mem_cons_self c rest)
      have hnlt : ¬ c.area < sens := by
        intro hlt
        linarith
      have hrest : ∀ x ∈ rest, (0:ℚ) ≤ x.area :=
        fun x hx => hareas x (List.mem_cons_of_mem c hx)
      simp only [tripwireScan, if_neg hnlt]
      rw [ih _ hs hrest]
